import Mathlib

/-!
Shallow embedding of the checkout simulation (a point-of-sale payment
program): discount strategies, three mock payment methods backed by
per-instance ledgers, an order with total/discount/pay, a transaction
log line, and the checkout driver.  Monetary values are modelled as
rationals, Python dictionaries as association lists (unique keys in all
seeded ledgers), and Python runtime errors (KeyError from a missing
dictionary key, TypeError from instantiating an abstract class) as an
explicit error type threaded through `Except`.
-/

attribute [local semireducible] Rat.mul Rat.add Rat.sub Rat.inv

/-- Python runtime errors that the embedded code can raise. -/
inductive PyErr where
  | keyError : PyErr
  | typeError : PyErr
deriving DecidableEq

/-- The `payment_details` dictionary: the driver only ever stores these
string keys, each modelled as an optional field (`dict.get` returns
`None` for an absent key). -/
structure PaymentDetails where
  card_number : Option String
  expiry_date : Option String
  cvv : Option String
  email : Option String
  wallet_address : Option String
  name : Option String
  address : Option String
deriving DecidableEq

/-- Details dictionary built by the driver for a credit-card run. -/
def cardDetails (cn ed cv : String) : PaymentDetails :=
  ⟨some cn, some ed, some cv, none, none, none, none⟩

/-- Details dictionary built by the driver for a PayPal run. -/
def emailDetails (e : String) : PaymentDetails :=
  ⟨none, none, none, some e, none, none, none⟩

/-- Details dictionary built by the driver for a cryptocurrency run. -/
def walletDetails (w : String) : PaymentDetails :=
  ⟨none, none, none, none, some w, none, none⟩

/-- Details dictionary built by the driver for a cash run. -/
def cashDetails (n a : String) : PaymentDetails :=
  ⟨none, none, none, none, none, some n, some a⟩

/-- A mock account ledger: a mapping from identifier to balance,
modelled as an association list with unique keys. -/
abbrev Ledger := List (String × ℚ)

/-- Dictionary lookup: value stored at the first occurrence of a key. -/
def lookupKey : Ledger → String → Option ℚ
  | [], _ => none
  | p :: rest, k => if p.1 = k then some p.2 else lookupKey rest k

/-- Dictionary lookup through an optional key (`None` is never a key of
any seeded ledger, so `d.get(None, dflt)` yields the default). -/
def lookupOpt (l : Ledger) (k : Option String) : Option ℚ :=
  match k with
  | none => none
  | some key => lookupKey l key

/-- Python `d.get(key, dflt)`. -/
def getDefault (l : Ledger) (k : Option String) (dflt : ℚ) : ℚ :=
  (lookupOpt l k).getD dflt

/-- Python `d[key] -= amount` on the first occurrence of `key`. -/
def subFirst : Ledger → String → ℚ → Ledger
  | [], _, _ => []
  | p :: rest, k, amt =>
      if p.1 = k then (p.1, p.2 - amt) :: rest else p :: subFirst rest k amt

/-- Python `d[key] -= amount` through an optional key: raises `KeyError`
when the key (possibly `None`) is not present in the dictionary. -/
def subKeyM (l : Ledger) (k : Option String) (amt : ℚ) : Except PyErr Ledger :=
  match k with
  | none => .error .keyError
  | some key =>
      if (lookupKey l key).isSome then .ok (subFirst l key amt)
      else .error .keyError

/-- Discount strategies (`PercentageDiscount`, `FixedAmountDiscount`). -/
inductive Discount where
  | percentage (percentage : ℚ)
  | fixedAmount (discount_amount : ℚ)
deriving DecidableEq

/-- Embeds `calculate_discount` of the two concrete discount classes. -/
def Discount.calculate_discount : Discount → ℚ → ℚ
  | .percentage p, amount => amount * (p / 100)
  | .fixedAmount a, _ => a

/-- The three concrete payment-method classes (cash is the absence of a
payment method, per the driver). -/
inductive PaymentMethodKind where
  | creditCard
  | payPal
  | crypto
deriving DecidableEq

/-- Regex `^\d{16}$` on the card number. -/
def cardNumberShape (s : String) : Bool :=
  s.length = 16 && s.data.all Char.isDigit

/-- Regex `^\d{2}/\d{2}$` on the expiry date. -/
def expiryShape (s : String) : Bool :=
  match s.data with
  | [a, b, c, d, e] => a.isDigit && b.isDigit && c = '/' && d.isDigit && e.isDigit
  | _ => false

/-- Regex `^\d{3}$` on the cvv. -/
def cvvShape (s : String) : Bool :=
  s.length = 3 && s.data.all Char.isDigit

/-- One non-`@` character followed by anything: the final `[^@]+` of the
e-mail pattern (an unanchored `re.match` only needs a prefix). -/
def emailSeg3 : List Char → Bool
  | [] => false
  | c :: _ => c != '@'

/-- Tail matcher for `[^@]*\.[^@]+.*`: consume non-`@` characters until
the literal dot, then one further non-`@` character. -/
def emailSeg2 : List Char → Bool
  | [] => false
  | c :: rest => (c == '.' && emailSeg3 rest) || (c != '@' && emailSeg2 rest)

/-- Domain matcher for `[^@]+\.[^@]+.*`. -/
def emailDomain : List Char → Bool
  | [] => false
  | c :: rest => (c != '@') && emailSeg2 rest

/-- Local-part matcher for `[^@]*@` followed by the domain pattern. -/
def emailSeg1 : List Char → Bool
  | [] => false
  | c :: rest => (c == '@' && emailDomain rest) || (c != '@' && emailSeg1 rest)

/-- Regex `[^@]+@[^@]+\.[^@]+` via `re.match` (prefix match). -/
def emailShape (s : String) : Bool :=
  match s.data with
  | [] => false
  | c :: rest => (c != '@') && emailSeg1 rest

/-- Embeds `len(wallet_address) == 34`. -/
def walletShape (s : String) : Bool :=
  s.length = 34

/-- Embeds `not field or not <shape>(field)` inverted: the field is present,
truthy (non-empty) and matches its shape. -/
def optShape (p : String → Bool) (o : Option String) : Bool :=
  match o with
  | none => false
  | some s => (!(s = "")) && p s

/-- Seed table of `CreditCardPayment.__init__`. -/
def CreditCardPayment.approved_cards : Ledger :=
  [("1234567891234567", 500)]

/-- Embeds `CreditCardPayment.validate`: three field-shape checks in source
order, then membership of the card number in the approved table. -/
def CreditCardPayment.validate (l : Ledger) (d : PaymentDetails) : Bool × Ledger :=
  (optShape cardNumberShape d.card_number
     && optShape expiryShape d.expiry_date
     && optShape cvvShape d.cvv
     && (lookupOpt l d.card_number).isSome, l)

/-- Embeds `CreditCardPayment.check_balance`: `if card_number in approved_cards:
return approved_cards[card_number] >= amount` else `False`. -/
def CreditCardPayment.check_balance (l : Ledger) (d : PaymentDetails) (amount : ℚ) : Bool :=
  match d.card_number with
  | some card_number =>
      match lookupKey l card_number with
      | some bal => decide (amount ≤ bal)
      | none => false
  | none => false

/-- Embeds `CreditCardPayment.process_payment`: re-check the balance, then
`approved_cards[card_number] -= amount`. -/
def CreditCardPayment.process_payment (l : Ledger) (amount : ℚ) (d : PaymentDetails) :
    Except PyErr (Bool × Ledger) :=
  if CreditCardPayment.check_balance l d amount then
    match subKeyM l d.card_number amount with
    | .ok l2 => .ok (true, l2)
    | .error e => .error e
  else .ok (false, l)

/-- Seed table of `PayPalPayment.__init__`. -/
def PayPalPayment.approved_emails : Ledger :=
  [("Rand@gmail.com", 500), ("Sama@gmail.com", 1000)]

/-- Embeds `PayPalPayment.validate`: e-mail shape, then membership. -/
def PayPalPayment.validate (l : Ledger) (d : PaymentDetails) : Bool × Ledger :=
  (optShape emailShape d.email && (lookupOpt l d.email).isSome, l)

/-- Embeds `PayPalPayment.check_balance`: `approved_emails.get(email, 0) >= amount`. -/
def PayPalPayment.check_balance (l : Ledger) (d : PaymentDetails) (amount : ℚ) : Bool :=
  decide (amount ≤ getDefault l d.email 0)

/-- Embeds `PayPalPayment.process_payment`: re-check the balance, then
`approved_emails[email] -= amount`. -/
def PayPalPayment.process_payment (l : Ledger) (amount : ℚ) (d : PaymentDetails) :
    Except PyErr (Bool × Ledger) :=
  if PayPalPayment.check_balance l d amount then
    match subKeyM l d.email amount with
    | .ok l2 => .ok (true, l2)
    | .error e => .error e
  else .ok (false, l)

/-- Seed table of `CryptocurrencyPayment.__init__`. -/
def CryptocurrencyPayment.mock_wallets : Ledger :=
  [("1BoatSLRHtKNngkdXEeobR76b53LETtpyT", 1000)]

/-- Embeds `CryptocurrencyPayment.validate`: length-34 check, then membership. -/
def CryptocurrencyPayment.validate (l : Ledger) (d : PaymentDetails) : Bool × Ledger :=
  (optShape walletShape d.wallet_address && (lookupOpt l d.wallet_address).isSome, l)

/-- Embeds `CryptocurrencyPayment.check_balance`: `mock_wallets.get(wallet_address, 0) >= amount`. -/
def CryptocurrencyPayment.check_balance (l : Ledger) (d : PaymentDetails) (amount : ℚ) : Bool :=
  decide (amount ≤ getDefault l d.wallet_address 0)

/-- Embeds `CryptocurrencyPayment.process_payment`: re-check the balance, then
`mock_wallets[wallet_address] -= amount`. -/
def CryptocurrencyPayment.process_payment (l : Ledger) (amount : ℚ) (d : PaymentDetails) :
    Except PyErr (Bool × Ledger) :=
  if CryptocurrencyPayment.check_balance l d amount then
    match subKeyM l d.wallet_address amount with
    | .ok l2 => .ok (true, l2)
    | .error e => .error e
  else .ok (false, l)

/-- Virtual dispatch of `validate` over the concrete classes. -/
def PaymentMethod.validate : PaymentMethodKind → Ledger → PaymentDetails → Bool × Ledger
  | .creditCard, l, d => CreditCardPayment.validate l d
  | .payPal, l, d => PayPalPayment.validate l d
  | .crypto, l, d => CryptocurrencyPayment.validate l d

/-- Virtual dispatch of `check_balance` over the concrete classes. -/
def PaymentMethod.check_balance : PaymentMethodKind → Ledger → PaymentDetails → ℚ → Bool
  | .creditCard, l, d, a => CreditCardPayment.check_balance l d a
  | .payPal, l, d, a => PayPalPayment.check_balance l d a
  | .crypto, l, d, a => CryptocurrencyPayment.check_balance l d a

/-- Virtual dispatch of `process_payment` over the concrete classes. -/
def PaymentMethod.process_payment : PaymentMethodKind → Ledger → ℚ → PaymentDetails →
    Except PyErr (Bool × Ledger)
  | .creditCard, l, a, d => CreditCardPayment.process_payment l a d
  | .payPal, l, a, d => PayPalPayment.process_payment l a d
  | .crypto, l, a, d => CryptocurrencyPayment.process_payment l a d

/-- Embeds `get_discount` of each concrete class. -/
def PaymentMethod.get_discount : PaymentMethodKind → Discount
  | .creditCard => .fixedAmount 30
  | .payPal => .percentage 10
  | .crypto => .percentage 20

/-- The ledger key each class reads from the details dictionary
(`card_number` / `email` / `wallet_address`). -/
def PaymentMethod.balance_key : PaymentMethodKind → PaymentDetails → Option String
  | .creditCard, d => d.card_number
  | .payPal, d => d.email
  | .crypto, d => d.wallet_address

/-- The pure shape part of each `validate` (everything before the
ledger-membership check). -/
def PaymentMethod.shape_ok : PaymentMethodKind → PaymentDetails → Bool
  | .creditCard, d =>
      optShape cardNumberShape d.card_number
        && optShape expiryShape d.expiry_date
        && optShape cvvShape d.cvv
  | .payPal, d => optShape emailShape d.email
  | .crypto, d => optShape walletShape d.wallet_address

/-- The seed ledger each class starts from (`__init__`). -/
def initLedger : PaymentMethodKind → Ledger
  | .creditCard => CreditCardPayment.approved_cards
  | .payPal => PayPalPayment.approved_emails
  | .crypto => CryptocurrencyPayment.mock_wallets

/-- Embeds `payment_method.__class__.__name__.replace('Payment', '')` for the
three classes, as computed by the driver. -/
def classLabel : PaymentMethodKind → String
  | .creditCard => "CreditCard"
  | .payPal => "PayPal"
  | .crypto => "Cryptocurrency"

/-- The `Order` class: item rows, a status string, and optional
references to a payment method and a discount strategy. -/
structure Order where
  items : List String
  quantities : List ℤ
  prices : List ℚ
  status : String
  payment_method : Option PaymentMethodKind
  discount_strategy : Option Discount
deriving DecidableEq

/-- Embeds `Order.__init__`. -/
def Order.init : Order :=
  ⟨[], [], [], "open", none, none⟩

/-- Embeds `Order.add_item`. -/
def Order.add_item (o : Order) (nm : String) (quantity : ℤ) (price : ℚ) : Order :=
  { o with
    items := o.items ++ [nm]
    quantities := o.quantities ++ [quantity]
    prices := o.prices ++ [price] }

/-- Embeds `Order.total_price`: running sum of `quantity * price` over
`zip(quantities, prices)`. -/
def Order.total_price (o : Order) : ℚ :=
  (o.quantities.zip o.prices).foldl (fun total qp => total + (qp.1 : ℚ) * qp.2) 0

/-- Embeds `Order.set_payment_method`. -/
def Order.set_payment_method (o : Order) (k : PaymentMethodKind) : Order :=
  { o with payment_method := some k }

/-- Embeds `Order.set_discount_strategy`. -/
def Order.set_discount_strategy (o : Order) (s : Discount) : Order :=
  { o with discount_strategy := some s }

/-- Embeds `Order.apply_discounts`. -/
def Order.apply_discounts (o : Order) : ℚ :=
  match o.discount_strategy with
  | some s => s.calculate_discount o.total_price
  | none => 0

/-- The amount `Order.pay` hands to `process_payment`: the discounted
total, clamped at zero (`if final_amount < 0: final_amount = 0`). -/
def Order.final_amount (o : Order) : ℚ :=
  let discount := o.apply_discounts
  let fa := o.total_price - discount
  if fa < 0 then 0 else fa

/-- Embeds `Order.pay`: immediate `True` without a payment method; otherwise
validate, compute the clamped final amount, process the payment, and set
the status to `"paid"` on success. -/
def Order.pay (o : Order) (l : Ledger) (d : PaymentDetails) :
    Except PyErr (Bool × Order × Ledger) :=
  match o.payment_method with
  | none => .ok (true, o, l)
  | some k =>
      let v := PaymentMethod.validate k l d
      if v.1 then
        match PaymentMethod.process_payment k v.2 o.final_amount d with
        | .ok (true, l2) => .ok (true, { o with status := "paid" }, l2)
        | .ok (false, l2) => .ok (false, o, l2)
        | .error e => .error e
      else .ok (false, o, v.2)

/-- Floor of a rational (used to model Python float formatting). -/
def ratFloor (q : ℚ) : ℤ :=
  q.num.fdiv q.den

/-- Nearest integer to `100 * q`, ties to even: the rounding of Python's
`f"{q:.2f}"` on exactly-representable values. -/
def round2 (q : ℚ) : ℤ :=
  let x := q * 100
  let fl := ratFloor x
  let frac := x - (fl : ℚ)
  if frac < 1 / 2 then fl
  else if 1 / 2 < frac then fl + 1
  else if fl % 2 = 0 then fl else fl + 1

/-- Two-digit zero-padded rendering of a value below 100. -/
def natPad2 (n : ℕ) : String :=
  if n < 10 then "0" ++ toString n else toString n

/-- Python `f"{q:.2f}"`. -/
def fmt2 (q : ℚ) : String :=
  let n := round2 q
  if n < 0 then
    "-" ++ toString ((-n).toNat / 100) ++ "." ++ natPad2 ((-n).toNat % 100)
  else
    toString (n.toNat / 100) ++ "." ++ natPad2 (n.toNat % 100)

/-- The part of `FileLogger.log_transaction`'s line after the
`f"{datetime.now()}: "` timestamp prefix. -/
def log_transaction_message (payment_method : String) (amount : ℚ) (success : Bool) : String :=
  payment_method ++ " payment of $" ++ fmt2 amount ++ " - "
    ++ (if success then "Success" else "Failure")

/-- Outcome of one run of `main` after the items are entered: the lines
appended to `transactions.log`, plus how the run ended. -/
inductive RunOutcome where
  | finished : List String → Bool → Ledger → RunOutcome
  | invalidChoice : RunOutcome
  | crashed : PyErr → List String → RunOutcome
deriving DecidableEq

/-- The driver's menu: `some (some k)` selects a concrete class,
`some none` selects cash, `none` is an invalid choice. -/
def choose_method (choice : String) : Option (Option PaymentMethodKind) :=
  if choice = "1" then some (some .creditCard)
  else if choice = "2" then some (some .payPal)
  else if choice = "3" then some (some .crypto)
  else if choice = "4" then some none
  else none

/-- The item-entry loop of `main`: a fresh order with each entered item
appended. -/
def buildOrder (entries : List (String × ℤ × ℚ)) : Order :=
  entries.foldl (fun o it => o.add_item it.1 it.2.1 it.2.2) Order.init

/-- The non-cash tail of `main`: set method and discount, pay against
the fresh seed ledger, then log one line with the class label and
`order.total_price()`. -/
def runPayment (k : PaymentMethodKind) (entries : List (String × ℤ × ℚ))
    (d : PaymentDetails) : RunOutcome :=
  let order := ((buildOrder entries).set_payment_method k).set_discount_strategy
    (PaymentMethod.get_discount k)
  match Order.pay order (initLedger k) d with
  | .ok (success, o2, l2) =>
      .finished [log_transaction_message (classLabel k) o2.total_price success] success l2
  | .error e => .crashed e []

/-- The cash tail of `main`: pay (with no payment method set), then
`TransactionLogger('transactions.log')` — instantiating the abstract
class raises `TypeError` before any line is logged. -/
def runCash (entries : List (String × ℤ × ℚ)) (d : PaymentDetails) : RunOutcome :=
  match Order.pay (buildOrder entries) [] d with
  | .ok _ => .crashed .typeError []
  | .error e => .crashed e []

/-- One full run of `main` on the given console inputs. -/
def runCheckout (entries : List (String × ℤ × ℚ)) (choice : String)
    (d : PaymentDetails) : RunOutcome :=
  match choose_method choice with
  | none => .invalidChoice
  | some none => runCash entries d
  | some (some k) => runPayment k entries d

/-- A sequence of `Order.pay` calls against one shared ledger (one
payment-method instance reused across orders). -/
def payAll : List (Order × PaymentDetails) → Ledger → Except PyErr Ledger
  | [], l => .ok l
  | c :: rest, l =>
      match Order.pay c.1 l c.2 with
      | .ok r => payAll rest r.2.2
      | .error e => .error e

/-- Scenario 1 console input: one item, qty 2, price 25, paid with the
approved credit card. -/
def scenario1Details : PaymentDetails :=
  cardDetails "1234567891234567" "11/25" "123"

/-- Scenario 1 run of the driver. -/
def scenario1Run : RunOutcome :=
  runCheckout [("item", 2, 25)] "1" scenario1Details

/-- Scenario 1 order as the driver has wired it before paying. -/
def scenario1Order : Order :=
  ((buildOrder [("item", 2, 25)]).set_payment_method .creditCard).set_discount_strategy
    (PaymentMethod.get_discount .creditCard)

instance {e a : Type} [DecidableEq e] [DecidableEq a] : DecidableEq (Except e a) := fun x y =>
  match x, y with
  | .ok v, .ok w =>
      if h : v = w then isTrue (by rw [h])
      else isFalse (by intro hc; cases hc; exact h rfl)
  | .ok _, .error _ => isFalse (by intro hc; cases hc)
  | .error _, .ok _ => isFalse (by intro hc; cases hc)
  | .error u, .error w =>
      if h : u = w then isTrue (by rw [h])
      else isFalse (by intro hc; cases hc; exact h rfl)

/-! Helper lemmas about the ledger operations. -/

theorem lookupKey_subFirst_self (l : Ledger) (k : String) (amt : ℚ) :
    lookupKey (subFirst l k amt) k = (lookupKey l k).map (fun b => b - amt) := by
  induction l with
  | nil => rfl
  | cons p rest ih =>
      by_cases h : p.1 = k
      · simp [subFirst, lookupKey, h]
      · simp [subFirst, lookupKey, h, ih]

theorem lookupKey_subFirst_ne (l : Ledger) (k k2 : String) (amt : ℚ) (h : k2 ≠ k) :
    lookupKey (subFirst l k amt) k2 = lookupKey l k2 := by
  induction l with
  | nil => rfl
  | cons p rest ih =>
      by_cases hp : p.1 = k
      · simp [subFirst, lookupKey, hp, Ne.symm h]
      · simp [subFirst, lookupKey, hp, ih]

theorem subFirst_nonneg (l : Ledger) (k : String) (amt bal : ℚ)
    (hbal : lookupKey l k = some bal) (hle : amt ≤ bal)
    (h0 : ∀ p ∈ l, 0 ≤ p.2) : ∀ p ∈ subFirst l k amt, 0 ≤ p.2 := by
  induction l with
  | nil => simp [subFirst]
  | cons q rest ih =>
      by_cases hq : q.1 = k
      · rw [lookupKey, if_pos hq] at hbal
        injection hbal with hb
        intro p hp
        rw [subFirst, if_pos hq] at hp
        rcases List.mem_cons.mp hp with h1 | h2
        · rw [h1]
          have : 0 ≤ q.2 - amt := by rw [hb]; linarith
          exact this
        · exact h0 p (List.mem_cons_of_mem q h2)
      · rw [lookupKey, if_neg hq] at hbal
        intro p hp
        rw [subFirst, if_neg hq] at hp
        rcases List.mem_cons.mp hp with h1 | h2
        · rw [h1]; exact h0 q (List.mem_cons_self q rest)
        · exact ih hbal (fun r hr => h0 r (List.mem_cons_of_mem q hr)) p h2

theorem subKeyM_ok_iff (l : Ledger) (k : Option String) (amt : ℚ) (l2 : Ledger) :
    subKeyM l k amt = .ok l2 ↔
      ∃ id, k = some id ∧ (lookupKey l id).isSome ∧ l2 = subFirst l id amt := by
  cases k with
  | none => simp [subKeyM]
  | some key =>
      by_cases h : (lookupKey l key).isSome
      · simp only [subKeyM, if_pos h]
        constructor
        · intro hh
          injection hh with hh
          exact ⟨key, rfl, h, hh.symm⟩
        · rintro ⟨id, hid, _, hl2⟩
          injection hid with hid
          rw [hl2, hid]
      · simp only [subKeyM, if_neg h]
        constructor
        · intro hh; cases hh
        · rintro ⟨id, hid, hmem, _⟩
          injection hid with hid
          rw [← hid] at hmem
          exact absurd hmem h

/-! Helper lemmas about the payment-method classes. -/

theorem validate_snd (k : PaymentMethodKind) (l : Ledger) (d : PaymentDetails) :
    (PaymentMethod.validate k l d).2 = l := by
  cases k <;> rfl

theorem validate_fst (k : PaymentMethodKind) (l : Ledger) (d : PaymentDetails) :
    (PaymentMethod.validate k l d).1 =
      (PaymentMethod.shape_ok k d
        && (lookupOpt l (PaymentMethod.balance_key k d)).isSome) := by
  cases k with
  | creditCard =>
      simp [PaymentMethod.validate, CreditCardPayment.validate, PaymentMethod.shape_ok,
        PaymentMethod.balance_key, Bool.and_assoc]
  | payPal => rfl
  | crypto => rfl

theorem check_balance_of_key (k : PaymentMethodKind) (l : Ledger) (d : PaymentDetails)
    (amt bal : ℚ) (id : String) (hk : PaymentMethod.balance_key k d = some id)
    (hl : lookupKey l id = some bal) :
    PaymentMethod.check_balance k l d amt = decide (amt ≤ bal) := by
  cases k with
  | creditCard =>
      rw [PaymentMethod.balance_key] at hk
      simp [PaymentMethod.check_balance, CreditCardPayment.check_balance, hk, hl]
  | payPal =>
      rw [PaymentMethod.balance_key] at hk
      simp [PaymentMethod.check_balance, PayPalPayment.check_balance, getDefault,
        lookupOpt, hk, hl]
  | crypto =>
      rw [PaymentMethod.balance_key] at hk
      simp [PaymentMethod.check_balance, CryptocurrencyPayment.check_balance, getDefault,
        lookupOpt, hk, hl]

theorem process_payment_eq (k : PaymentMethodKind) (l : Ledger) (amt : ℚ)
    (d : PaymentDetails) :
    PaymentMethod.process_payment k l amt d =
      if PaymentMethod.check_balance k l d amt then
        match subKeyM l (PaymentMethod.balance_key k d) amt with
        | .ok l2 => .ok (true, l2)
        | .error e => .error e
      else .ok (false, l) := by
  cases k <;> rfl

theorem process_ok_true_iff (k : PaymentMethodKind) (l : Ledger) (amt : ℚ)
    (d : PaymentDetails) (l2 : Ledger) :
    PaymentMethod.process_payment k l amt d = .ok (true, l2) ↔
      ∃ id bal, PaymentMethod.balance_key k d = some id ∧ lookupKey l id = some bal ∧
        amt ≤ bal ∧ l2 = subFirst l id amt := by
  rw [process_payment_eq]
  by_cases hc : PaymentMethod.check_balance k l d amt
  · rw [if_pos hc]
    cases hs : subKeyM l (PaymentMethod.balance_key k d) amt with
    | ok l3 =>
        obtain ⟨id, hk, hmem, hl3⟩ := (subKeyM_ok_iff _ _ _ _).mp hs
        obtain ⟨bal, hbal⟩ := Option.isSome_iff_exists.mp hmem
        have hle : amt ≤ bal := by
          have := check_balance_of_key k l d amt bal id hk hbal
          rw [hc] at this
          exact of_decide_eq_true this.symm
        constructor
        · intro hh
          injection hh with hh
          obtain ⟨-, hh2⟩ := Prod.mk.injEq .. ▸ hh
          exact ⟨id, bal, hk, hbal, hle, by rw [← hh2, hl3]⟩
        · rintro ⟨id2, bal2, hk2, hbal2, hle2, hl2⟩
          rw [hk] at hk2
          injection hk2 with hk2
          rw [hl2, ← hk2, ← hl3]
      | error e =>
        constructor
        · intro hh; cases hh
        · rintro ⟨id2, bal2, hk2, hbal2, hle2, hl2⟩
          rw [hk2] at hs
          simp [subKeyM, hbal2] at hs
  · rw [if_neg hc]
    constructor
    · intro hh
      injection hh with hh
      obtain ⟨hb, -⟩ := Prod.mk.injEq .. ▸ hh
      cases hb
    · rintro ⟨id2, bal2, hk2, hbal2, hle2, hl2⟩
      have := check_balance_of_key k l d amt bal2 id2 hk2 hbal2
      rw [decide_eq_true hle2] at this
      exact absurd this hc

theorem process_ok_false_iff (k : PaymentMethodKind) (l : Ledger) (amt : ℚ)
    (d : PaymentDetails) (l2 : Ledger) :
    PaymentMethod.process_payment k l amt d = .ok (false, l2) ↔
      PaymentMethod.check_balance k l d amt = false ∧ l2 = l := by
  rw [process_payment_eq]
  by_cases hc : PaymentMethod.check_balance k l d amt
  · rw [if_pos hc]
    cases hs : subKeyM l (PaymentMethod.balance_key k d) amt with
    | ok l3 =>
        constructor
        · intro hh
          injection hh with hh
          obtain ⟨hb, -⟩ := Prod.mk.injEq .. ▸ hh
          cases hb
        · rintro ⟨hcf, -⟩
          rw [hc] at hcf
          cases hcf
    | error e =>
        constructor
        · intro hh; cases hh
        · rintro ⟨hcf, -⟩
          rw [hc] at hcf
          cases hcf
  · rw [if_neg hc]
    constructor
    · intro hh
      injection hh with hh
      obtain ⟨-, hh2⟩ := Prod.mk.injEq .. ▸ hh
      exact ⟨Bool.of_not_eq_true hc, hh2.symm⟩
    · rintro ⟨-, hl2⟩
      rw [hl2]

theorem process_ok_of_mem (k : PaymentMethodKind) (l : Ledger) (amt : ℚ)
    (d : PaymentDetails) (h : (lookupOpt l (PaymentMethod.balance_key k d)).isSome) :
    ∃ b l2, PaymentMethod.process_payment k l amt d = .ok (b, l2) := by
  rw [process_payment_eq]
  by_cases hc : PaymentMethod.check_balance k l d amt
  · cases hk : PaymentMethod.balance_key k d with
    | none => rw [hk] at h; cases h
    | some id =>
        rw [hk] at h
        refine ⟨true, subFirst l id amt, ?_⟩
        rw [if_pos hc]
        simp [subKeyM, lookupOpt] at h ⊢
        rw [if_pos h]
  · exact ⟨false, l, by rw [if_neg hc]⟩

/-! Helper lemmas about orders and `pay`. -/

theorem final_amount_def (o : Order) :
    o.final_amount =
      if o.total_price - o.apply_discounts < 0 then 0
      else o.total_price - o.apply_discounts := rfl

theorem final_amount_eq_max (o : Order) :
    o.final_amount = max 0 (o.total_price - o.apply_discounts) := by
  rw [final_amount_def]
  rcases lt_or_le (o.total_price - o.apply_discounts) 0 with h | h
  · rw [if_pos h, max_eq_left h.le]
  · rw [if_neg (not_lt.mpr h), max_eq_right h]

theorem final_amount_nonneg (o : Order) : 0 ≤ o.final_amount := by
  rw [final_amount_def]
  rcases lt_or_le (o.total_price - o.apply_discounts) 0 with h | h
  · rw [if_pos h]
  · rw [if_neg (not_lt.mpr h)]; exact h

theorem set_status_total_price (o : Order) (s : String) :
    ({ o with status := s } : Order).total_price = o.total_price := rfl

theorem set_status_final_amount (o : Order) (s : String) :
    ({ o with status := s } : Order).final_amount = o.final_amount := rfl

theorem pay_no_method (o : Order) (l : Ledger) (d : PaymentDetails)
    (h : o.payment_method = none) : Order.pay o l d = .ok (true, o, l) := by
  unfold Order.pay
  rw [h]

theorem pay_validate_false (o : Order) (l : Ledger) (d : PaymentDetails)
    (k : PaymentMethodKind) (hpm : o.payment_method = some k)
    (hv : (PaymentMethod.validate k l d).1 = false) :
    Order.pay o l d = .ok (false, o, l) := by
  unfold Order.pay
  rw [hpm]
  simp only [hv, Bool.false_eq_true, if_false, validate_snd]

theorem pay_validate_true (o : Order) (l : Ledger) (d : PaymentDetails)
    (k : PaymentMethodKind) (hpm : o.payment_method = some k)
    (hv : (PaymentMethod.validate k l d).1 = true) :
    Order.pay o l d =
      match PaymentMethod.process_payment k l o.final_amount d with
      | .ok (true, l2) => .ok (true, { o with status := "paid" }, l2)
      | .ok (false, l2) => .ok (false, o, l2)
      | .error e => .error e := by
  unfold Order.pay
  rw [hpm]
  simp only [hv, if_true, validate_snd]

theorem pay_preserves_nonneg (o : Order) (l : Ledger) (d : PaymentDetails)
    (b : Bool) (o2 : Order) (l2 : Ledger)
    (h0 : ∀ p ∈ l, 0 ≤ p.2) (h : Order.pay o l d = .ok (b, o2, l2)) :
    ∀ p ∈ l2, 0 ≤ p.2 := by
  cases hpm : o.payment_method with
  | none =>
      rw [pay_no_method o l d hpm] at h
      simp only [Except.ok.injEq, Prod.mk.injEq] at h
      rw [← h.2.2]
      exact h0
  | some k =>
      cases hv : (PaymentMethod.validate k l d).1 with
      | false =>
          rw [pay_validate_false o l d k hpm hv] at h
          simp only [Except.ok.injEq, Prod.mk.injEq] at h
          rw [← h.2.2]
          exact h0
      | true =>
          rw [pay_validate_true o l d k hpm hv] at h
          cases hp : PaymentMethod.process_payment k l o.final_amount d with
          | error e => rw [hp] at h; cases h
          | ok r =>
              obtain ⟨bb, l3⟩ := r
              cases bb with
              | true =>
                  rw [hp] at h
                  simp only [Except.ok.injEq, Prod.mk.injEq] at h
                  obtain ⟨id, bal, hid, hbal, hle, hl3⟩ :=
                    (process_ok_true_iff k l o.final_amount d l3).mp hp
                  rw [← h.2.2, hl3]
                  exact subFirst_nonneg l id o.final_amount bal hbal hle h0
              | false =>
                  rw [hp] at h
                  simp only [Except.ok.injEq, Prod.mk.injEq] at h
                  obtain ⟨-, hl3⟩ := (process_ok_false_iff k l o.final_amount d l3).mp hp
                  rw [← h.2.2, hl3]
                  exact h0

theorem pay_ok_exists (o : Order) (l : Ledger) (d : PaymentDetails) :
    ∃ b o2 l2, Order.pay o l d = .ok (b, o2, l2) := by
  cases hpm : o.payment_method with
  | none => exact ⟨true, o, l, pay_no_method o l d hpm⟩
  | some k =>
      cases hv : (PaymentMethod.validate k l d).1 with
      | false => exact ⟨false, o, l, pay_validate_false o l d k hpm hv⟩
      | true =>
          have hmem : (lookupOpt l (PaymentMethod.balance_key k d)).isSome := by
            have hf := validate_fst k l d
            rw [hv] at hf
            exact (Bool.and_eq_true .. ▸ hf.symm).2
          obtain ⟨b, l2, hp⟩ := process_ok_of_mem k l o.final_amount d hmem
          rw [pay_validate_true o l d k hpm hv, hp]
          cases b with
          | true => exact ⟨true, { o with status := "paid" }, l2, rfl⟩
          | false => exact ⟨false, o, l2, rfl⟩

theorem pay_total_price_eq (o : Order) (l : Ledger) (d : PaymentDetails)
    (b : Bool) (o2 : Order) (l2 : Ledger) (h : Order.pay o l d = .ok (b, o2, l2)) :
    o2.total_price = o.total_price := by
  cases hpm : o.payment_method with
  | none =>
      rw [pay_no_method o l d hpm] at h
      simp only [Except.ok.injEq, Prod.mk.injEq] at h
      rw [← h.2.1]
  | some k =>
      cases hv : (PaymentMethod.validate k l d).1 with
      | false =>
          rw [pay_validate_false o l d k hpm hv] at h
          simp only [Except.ok.injEq, Prod.mk.injEq] at h
          rw [← h.2.1]
      | true =>
          rw [pay_validate_true o l d k hpm hv] at h
          cases hp : PaymentMethod.process_payment k l o.final_amount d with
          | error e => rw [hp] at h; cases h
          | ok r =>
              obtain ⟨bb, l3⟩ := r
              cases bb with
              | true =>
                  rw [hp] at h
                  simp only [Except.ok.injEq, Prod.mk.injEq] at h
                  rw [← h.2.1, set_status_total_price]
              | false =>
                  rw [hp] at h
                  simp only [Except.ok.injEq, Prod.mk.injEq] at h
                  rw [← h.2.1]

theorem buildOrder_foldl_pm (entries : List (String × ℤ × ℚ)) (o : Order) :
    (entries.foldl (fun o it => o.add_item it.1 it.2.1 it.2.2) o).payment_method =
      o.payment_method := by
  induction entries generalizing o with
  | nil => rfl
  | cons e rest ih => rw [List.foldl_cons, ih]; rfl

theorem buildOrder_payment_method (entries : List (String × ℤ × ℚ)) :
    (buildOrder entries).payment_method = none :=
  buildOrder_foldl_pm entries Order.init

/-! Claim theorems. -/

/-- Claim C2 (code bug in the source): on the cash path (menu choice 4,
no payment method set) the driver instantiates the abstract
`TransactionLogger` class, which raises `TypeError` before
`log_transaction` can run, so the run crashes and appends zero lines to
the transaction log — not the one line per payment attempt that the
specification promises. -/
theorem cash_run_appends_no_log_line (entries : List (String × ℤ × ℚ))
    (d : PaymentDetails) :
    runCheckout entries "4" d = .crashed .typeError [] := by
  have h1 : runCheckout entries "4" d = runCash entries d := rfl
  rw [h1]
  unfold runCash
  rw [pay_no_method (buildOrder entries) [] d (buildOrder_payment_method entries)]

/-- Claim C3: when no payment method is set, `Order.pay` returns `True`
immediately for any details, performs no validation and no ledger
mutation, and returns the order itself unchanged — in particular its
status stays `"open"` rather than being set to `"paid"`. -/
theorem pay_without_method_returns_true (o : Order) (l : Ledger) (d : PaymentDetails)
    (h : o.payment_method = none) :
    Order.pay o l d = .ok (true, o, l) :=
  pay_no_method o l d h

/-- Witness for C3: a cash order built by the driver pays successfully
with untouched ledger and order, and its status is still `"open"`. -/
theorem pay_without_method_returns_true_witness :
    Order.pay (buildOrder [("pen", 1, 3)]) CreditCardPayment.approved_cards
        (cashDetails "Rand" "Amman") =
      .ok (true, buildOrder [("pen", 1, 3)], CreditCardPayment.approved_cards) ∧
    (buildOrder [("pen", 1, 3)]).status = "open" :=
  ⟨pay_without_method_returns_true (buildOrder [("pen", 1, 3)])
    CreditCardPayment.approved_cards (cashDetails "Rand" "Amman") (by rfl), by rfl⟩

/-- Claim C4: the `final_amount` that `Order.pay` passes to
`process_payment` equals `max 0 (total_price - apply_discounts)` and is
therefore never negative, for every order and discount strategy. -/
theorem final_amount_clamped_nonneg (o : Order) :
    o.final_amount = max 0 (o.total_price - o.apply_discounts) ∧ 0 ≤ o.final_amount :=
  ⟨final_amount_eq_max o, final_amount_nonneg o⟩

/-- Claim C5: across any sequence of `Order.pay` calls against a shared
ledger, every ledger entry that starts non-negative stays non-negative:
the balance check inside `process_payment` precedes the mutation. -/
theorem ledger_nonneg_preserved_by_pay_sequence (calls : List (Order × PaymentDetails)) :
    ∀ (l l2 : Ledger), (∀ p ∈ l, 0 ≤ p.2) → payAll calls l = .ok l2 →
      ∀ p ∈ l2, 0 ≤ p.2 := by
  induction calls with
  | nil =>
      intro l l2 h0 h
      unfold payAll at h
      injection h with h
      rw [← h]
      exact h0
  | cons c rest ih =>
      intro l l2 h0 h
      unfold payAll at h
      cases hp : Order.pay c.1 l c.2 with
      | error e => rw [hp] at h; cases h
      | ok r =>
          rw [hp] at h
          exact ih r.2.2 l2
            (pay_preserves_nonneg c.1 l c.2 r.1 r.2.1 r.2.2 h0 (by rw [hp])) h

/-- Witness for C5: running Scenario 1 through `payAll` leaves the card
ledger at 480, which the theorem certifies non-negative. -/
theorem ledger_nonneg_preserved_by_pay_sequence_witness : (0 : ℚ) ≤ 480 :=
  ledger_nonneg_preserved_by_pay_sequence [(scenario1Order, scenario1Details)]
    CreditCardPayment.approved_cards [("1234567891234567", 480)]
    (by decide) (by decide) ("1234567891234567", 480) (by decide)

/-- Claim C8: `validate` of every payment-method variant never mutates
the ledger, and its boolean result is exactly the conjunction of the
input-shape checks with membership of the identifier in the ledger. -/
theorem validate_preserves_ledger (k : PaymentMethodKind) (l : Ledger)
    (d : PaymentDetails) :
    (PaymentMethod.validate k l d).2 = l ∧
    (PaymentMethod.validate k l d).1 =
      (PaymentMethod.shape_ok k d
        && (lookupOpt l (PaymentMethod.balance_key k d)).isSome) :=
  ⟨validate_snd k l d, validate_fst k l d⟩

/-- Claim C1, counterexample: in Scenario 1 the driver logs the line
with the undiscounted total `$50.00` and the label `"CreditCard"`
(the class name minus `"Payment"`), so the logged line does not end
with the claimed `"Credit payment of $20.00 - Success"` — even though
the ledger does drop to 480, showing that the amount actually charged
was the discounted 20. -/
theorem scenario1_logged_line_not_discounted :
    scenario1Run = .finished ["CreditCard payment of $50.00 - Success"] true
        [("1234567891234567", 480)] ∧
    ("Credit payment of $20.00 - Success").data.isSuffixOf
        ("CreditCard payment of $50.00 - Success").data = false := by
  constructor
  · decide
  · decide

/-- Claim C1, amended: on every checkout run that selects a concrete
payment method, the single logged line carries `order.total_price()` —
the undiscounted gross total — together with the class-name label, not
the discounted amount handed to `process_payment`. -/
theorem checkout_logs_undiscounted_total (entries : List (String × ℤ × ℚ))
    (choice : String) (d : PaymentDetails) (k : PaymentMethodKind)
    (hc : choose_method choice = some (some k)) :
    ∃ success l2,
      runCheckout entries choice d =
        .finished [log_transaction_message (classLabel k)
            (((buildOrder entries).set_payment_method k).set_discount_strategy
              (PaymentMethod.get_discount k)).total_price success] success l2 := by
  have h1 : runCheckout entries choice d =
      match choose_method choice with
      | none => .invalidChoice
      | some none => runCash entries d
      | some (some k) => runPayment k entries d := rfl
  rw [h1, hc]
  show ∃ success l2,
    runPayment k entries d =
      .finished [log_transaction_message (classLabel k)
          (((buildOrder entries).set_payment_method k).set_discount_strategy
            (PaymentMethod.get_discount k)).total_price success] success l2
  simp only [runPayment]
  obtain ⟨b, o2, l2, hp⟩ := pay_ok_exists
    (((buildOrder entries).set_payment_method k).set_discount_strategy
      (PaymentMethod.get_discount k)) (initLedger k) d
  refine ⟨b, l2, ?_⟩
  simp only [hp]
  rw [pay_total_price_eq _ _ _ _ _ _ hp]

/-- Witness for the amended C1 at the Scenario 1 inputs. -/
theorem checkout_logs_undiscounted_total_witness :
    ∃ success l2,
      runCheckout [("item", 2, 25)] "1" scenario1Details =
        .finished [log_transaction_message (classLabel .creditCard)
            (((buildOrder [("item", 2, 25)]).set_payment_method
              .creditCard).set_discount_strategy
              (PaymentMethod.get_discount .creditCard)).total_price success] success l2 :=
  checkout_logs_undiscounted_total [("item", 2, 25)] "1" scenario1Details
    .creditCard (by rfl)

/-- Claim C6: for every variant, `process_payment` re-verifies the
balance internally: when `check_balance` reports insufficient funds it
returns false and leaves the ledger untouched, and whenever it returns
true it has decremented exactly the identified entry by exactly the
amount, leaving every other entry unchanged. -/
theorem process_payment_balance_contract (k : PaymentMethodKind) (l : Ledger)
    (amt : ℚ) (d : PaymentDetails) :
    (PaymentMethod.check_balance k l d amt = false →
      PaymentMethod.process_payment k l amt d = .ok (false, l)) ∧
    (∀ l2, PaymentMethod.process_payment k l amt d = .ok (true, l2) →
      ∃ id bal, PaymentMethod.balance_key k d = some id ∧ lookupKey l id = some bal ∧
        amt ≤ bal ∧ lookupKey l2 id = some (bal - amt) ∧
        ∀ k2, k2 ≠ id → lookupKey l2 k2 = lookupKey l k2) := by
  constructor
  · intro hc
    exact (process_ok_false_iff k l amt d l).mpr ⟨hc, rfl⟩
  · intro l2 h
    obtain ⟨id, bal, hid, hbal, hle, hl2⟩ := (process_ok_true_iff k l amt d l2).mp h
    refine ⟨id, bal, hid, hbal, hle, ?_, ?_⟩
    · rw [hl2, lookupKey_subFirst_self, hbal]
      rfl
    · intro k2 hk2
      rw [hl2, lookupKey_subFirst_ne l id k2 amt hk2]

/-- Witness for C6: with the seeded card ledger, a 600 charge bounces
with no mutation, and a 20 charge decrements the card entry to 480. -/
theorem process_payment_balance_contract_witness :
    PaymentMethod.process_payment .creditCard CreditCardPayment.approved_cards 600
        scenario1Details = .ok (false, CreditCardPayment.approved_cards) ∧
    ∃ id bal, PaymentMethod.balance_key .creditCard scenario1Details = some id ∧
      lookupKey CreditCardPayment.approved_cards id = some bal ∧ (20 : ℚ) ≤ bal ∧
      lookupKey [("1234567891234567", 480)] id = some (bal - 20) ∧
      ∀ k2, k2 ≠ id → lookupKey [("1234567891234567", 480)] k2 =
        lookupKey CreditCardPayment.approved_cards k2 :=
  ⟨(process_payment_balance_contract .creditCard CreditCardPayment.approved_cards 600
      scenario1Details).1 (by decide),
   (process_payment_balance_contract .creditCard CreditCardPayment.approved_cards 20
      scenario1Details).2 [("1234567891234567", 480)] (by decide)⟩

/-- Claim C7: `pay` is not idempotent after success: with a payment
method set, valid details, and a balance covering twice the final
amount, two consecutive `pay` calls both succeed and the ledger entry
drops by twice the final amount — the status turning `"paid"` does not
guard against re-charging. -/
theorem pay_double_charge_after_success (k : PaymentMethodKind) (o : Order)
    (l : Ledger) (d : PaymentDetails) (id : String) (bal : ℚ)
    (hpm : o.payment_method = some k)
    (hv : (PaymentMethod.validate k l d).1 = true)
    (hid : PaymentMethod.balance_key k d = some id)
    (hbal : lookupKey l id = some bal)
    (hsuff : 2 * o.final_amount ≤ bal) :
    ∃ o1 l1 o2 l2,
      Order.pay o l d = .ok (true, o1, l1) ∧ o1.status = "paid" ∧
      Order.pay o1 l1 d = .ok (true, o2, l2) ∧
      lookupKey l2 id = some (bal - 2 * o.final_amount) := by
  have hf0 : 0 ≤ o.final_amount := final_amount_nonneg o
  have hle1 : o.final_amount ≤ bal := by linarith
  have hp1 : PaymentMethod.process_payment k l o.final_amount d =
      .ok (true, subFirst l id o.final_amount) :=
    (process_ok_true_iff k l o.final_amount d _).mpr ⟨id, bal, hid, hbal, hle1, rfl⟩
  have hpay1 : Order.pay o l d =
      .ok (true, { o with status := "paid" }, subFirst l id o.final_amount) := by
    rw [pay_validate_true o l d k hpm hv, hp1]
  have hlk1 : lookupKey (subFirst l id o.final_amount) id =
      some (bal - o.final_amount) := by
    rw [lookupKey_subFirst_self, hbal]
    rfl
  have hv1 : (PaymentMethod.validate k (subFirst l id o.final_amount) d).1 = true := by
    rw [validate_fst]
    have hvv := validate_fst k l d
    rw [hv] at hvv
    obtain ⟨hs, -⟩ := (Bool.and_eq_true _ _).mp hvv.symm
    rw [hs, Bool.true_and, hid]
    simp [lookupOpt, hlk1]
  have hpm1 : ({ o with status := "paid" } : Order).payment_method = some k := hpm
  have hle2 : ({ o with status := "paid" } : Order).final_amount ≤
      bal - o.final_amount := by
    rw [set_status_final_amount]
    linarith
  have hp2 : PaymentMethod.process_payment k (subFirst l id o.final_amount)
      ({ o with status := "paid" } : Order).final_amount d =
      .ok (true, subFirst (subFirst l id o.final_amount) id
        ({ o with status := "paid" } : Order).final_amount) :=
    (process_ok_true_iff k _ _ d _).mpr
      ⟨id, bal - o.final_amount, hid, hlk1, hle2, rfl⟩
  have hpay2 : Order.pay ({ o with status := "paid" } : Order)
      (subFirst l id o.final_amount) d =
      .ok (true, { ({ o with status := "paid" } : Order) with status := "paid" },
        subFirst (subFirst l id o.final_amount) id
          ({ o with status := "paid" } : Order).final_amount) := by
    rw [pay_validate_true _ _ _ k hpm1 hv1, hp2]
  refine ⟨{ o with status := "paid" }, subFirst l id o.final_amount, _, _,
    hpay1, rfl, hpay2, ?_⟩
  simp only [set_status_final_amount]
  rw [lookupKey_subFirst_self, hlk1]
  simp only [Option.map_some']
  congr 1
  ring

/-- Witness for C7 at the Scenario 1 inputs: the card is charged twice
and the ledger entry ends at 460. -/
theorem pay_double_charge_after_success_witness :
    ∃ o1 l1 o2 l2,
      Order.pay scenario1Order CreditCardPayment.approved_cards scenario1Details =
        .ok (true, o1, l1) ∧ o1.status = "paid" ∧
      Order.pay o1 l1 scenario1Details = .ok (true, o2, l2) ∧
      lookupKey l2 "1234567891234567" =
        some (500 - 2 * scenario1Order.final_amount) :=
  pay_double_charge_after_success .creditCard scenario1Order
    CreditCardPayment.approved_cards scenario1Details "1234567891234567" 500
    (by rfl) (by decide) (by rfl) (by decide) (by decide)

/-- Claim C9: called directly with an identifier absent from the ledger
and a non-positive amount, the PayPal and cryptocurrency
`process_payment` pass the `get(key, 0) >= amount` balance check and
then raise `KeyError` on the ledger decrement, while the credit-card
variant returns false for any unknown card and any amount. -/
theorem process_payment_direct_key_error (l : Ledger) (d : PaymentDetails)
    (amt : ℚ) (hamt : amt ≤ 0) :
    (lookupOpt l d.email = none →
      PaymentMethod.process_payment .payPal l amt d = .error .keyError) ∧
    (lookupOpt l d.wallet_address = none →
      PaymentMethod.process_payment .crypto l amt d = .error .keyError) ∧
    ∀ amt2 : ℚ, lookupOpt l d.card_number = none →
      PaymentMethod.process_payment .creditCard l amt2 d = .ok (false, l) := by
  refine ⟨?_, ?_, ?_⟩
  · intro h
    have hcheck : PayPalPayment.check_balance l d amt = true := by
      simp only [PayPalPayment.check_balance, getDefault, h, Option.getD_none,
        decide_eq_true_eq]
      exact hamt
    show PayPalPayment.process_payment l amt d = .error .keyError
    unfold PayPalPayment.process_payment
    rw [hcheck]
    show (match subKeyM l d.email amt with
      | .ok l2 => (Except.ok (true, l2) : Except PyErr (Bool × Ledger))
      | .error e => .error e) = .error .keyError
    cases he : d.email with
    | none => rfl
    | some e =>
        have h2 : lookupKey l e = none := by rw [he] at h; exact h
        simp [subKeyM, h2]
  · intro h
    have hcheck : CryptocurrencyPayment.check_balance l d amt = true := by
      simp only [CryptocurrencyPayment.check_balance, getDefault, h, Option.getD_none,
        decide_eq_true_eq]
      exact hamt
    show CryptocurrencyPayment.process_payment l amt d = .error .keyError
    unfold CryptocurrencyPayment.process_payment
    rw [hcheck]
    show (match subKeyM l d.wallet_address amt with
      | .ok l2 => (Except.ok (true, l2) : Except PyErr (Bool × Ledger))
      | .error e => .error e) = .error .keyError
    cases hw : d.wallet_address with
    | none => rfl
    | some w =>
        have h2 : lookupKey l w = none := by rw [hw] at h; exact h
        simp [subKeyM, h2]
  · intro amt2 h
    show CreditCardPayment.process_payment l amt2 d = .ok (false, l)
    have hcheck : CreditCardPayment.check_balance l d amt2 = false := by
      unfold CreditCardPayment.check_balance
      cases hcn : d.card_number with
      | none => rfl
      | some c =>
          have h2 : lookupKey l c = none := by rw [hcn] at h; exact h
          show (match lookupKey l c with
            | some bal => decide (amt2 ≤ bal)
            | none => false) = false
          rw [h2]
    unfold CreditCardPayment.process_payment
    rw [hcheck]
    rfl

/-- Witness for C9: an e-mail absent from every seed table crashes the
PayPal and crypto variants at amount 0 and bounces off the credit-card
variant. -/
theorem process_payment_direct_key_error_witness :
    PaymentMethod.process_payment .payPal PayPalPayment.approved_emails 0
        (emailDetails "ghost@gmail.com") = .error .keyError ∧
    PaymentMethod.process_payment .crypto CryptocurrencyPayment.mock_wallets 0
        (emailDetails "ghost@gmail.com") = .error .keyError ∧
    PaymentMethod.process_payment .creditCard CreditCardPayment.approved_cards 7
        (emailDetails "ghost@gmail.com") = .ok (false, CreditCardPayment.approved_cards) :=
  have h1 := process_payment_direct_key_error PayPalPayment.approved_emails
    (emailDetails "ghost@gmail.com") 0 (le_refl 0)
  have h2 := process_payment_direct_key_error CryptocurrencyPayment.mock_wallets
    (emailDetails "ghost@gmail.com") 0 (le_refl 0)
  have h3 := process_payment_direct_key_error CreditCardPayment.approved_cards
    (emailDetails "ghost@gmail.com") 0 (le_refl 0)
  ⟨h1.1 (by decide), h2.2.1 (by decide), h3.2.2 7 (by decide)⟩

/-- Claim C10: for every variant, an identifier present in the ledger
with a non-negative balance, and a negative amount, a direct
`process_payment` call succeeds (the check `balance >= amount` is
vacuous) and the ledger entry grows by the absolute value of the
amount; this path is unreachable through `Order.pay`, whose
`final_amount` is never negative. -/
theorem process_payment_negative_amount_credits (k : PaymentMethodKind) (l : Ledger)
    (d : PaymentDetails) (id : String) (bal amt : ℚ)
    (hid : PaymentMethod.balance_key k d = some id)
    (hbal : lookupKey l id = some bal) (hpos : 0 ≤ bal) (hneg : amt < 0) :
    PaymentMethod.process_payment k l amt d = .ok (true, subFirst l id amt) ∧
    lookupKey (subFirst l id amt) id = some (bal + |amt|) ∧
    ∀ o : Order, 0 ≤ o.final_amount := by
  have hle : amt ≤ bal := le_trans hneg.le hpos
  refine ⟨(process_ok_true_iff k l amt d (subFirst l id amt)).mpr
    ⟨id, bal, hid, hbal, hle, rfl⟩, ?_, fun o => final_amount_nonneg o⟩
  rw [lookupKey_subFirst_self, hbal, abs_of_neg hneg]
  simp only [Option.map_some']
  rw [sub_eq_add_neg]

/-- Witness for C10: charging the approved PayPal account -5 credits it
from 500 to 505. -/
theorem process_payment_negative_amount_credits_witness :
    PaymentMethod.process_payment .payPal PayPalPayment.approved_emails (-5)
        (emailDetails "Rand@gmail.com") =
      .ok (true, subFirst PayPalPayment.approved_emails "Rand@gmail.com" (-5)) ∧
    lookupKey (subFirst PayPalPayment.approved_emails "Rand@gmail.com" (-5))
        "Rand@gmail.com" = some (500 + |(-5 : ℚ)|) :=
  have h := process_payment_negative_amount_credits .payPal
    PayPalPayment.approved_emails (emailDetails "Rand@gmail.com")
    "Rand@gmail.com" 500 (-5) (by rfl) (by decide) (by decide) (by decide)
  ⟨h.1, h.2.1⟩
